/-
Verification of the authentication-and-request core of the ruckus_one
client library (src/ruckus_one/auth.py, src/ruckus_one/client.py,
src/ruckus_one/exceptions.py), as a shallow embedding in Lean 4.

Modelling conventions:
* Time (datetime.now(), token expiry) is an `Int` number of seconds; each
  call of a Python method that reads the clock receives the current time
  `now` explicitly.  A single call is modelled as happening at one instant.
* The HTTP transport is an oracle: each modelled call receives the outcome
  of its one `requests` invocation as an explicit argument
  (`TransportResult` for the token endpoint, `CallResult` for the
  generic request pipeline).
* JSON values are modelled by the inductive `JVal`; Python `None` is
  `JVal.null`.  Python truthiness and `str()` are modelled by `pyTruthy`,
  `pyStr` and `pyRepr` (string repr without escape sequences, which none of
  the verified inputs contain).  JSON numbers are modelled as integers;
  no claim involves fractional values.
* The token-endpoint JSON body is restricted to the two fields the code
  reads (`access_token`, `expires_in`), assumed well-typed when present.
* `requests` behaviour relevant here (requests >= 2.25 per setup.py, with
  json-decode errors as in requests >= 2.27 where they are
  RequestExceptions): `raise_for_status` raises exactly for status codes
  400..599 with message "STATUS Client Error: REASON for url: URL"
  (or "Server Error" for 500..599); `response.json()` failure raises a
  ValueError that is also a RequestException.
-/
import Mathlib

namespace RuckusOne

/-! ## JSON values and Python-semantics helpers -/

/-- A JSON value as decoded by `response.json()`; `null` also stands for
Python `None`. -/
inductive JVal where
  | null : JVal
  | bool : Bool → JVal
  | num : Int → JVal
  | str : String → JVal
  | arr : List JVal → JVal
  | obj : List (String × JVal) → JVal
deriving Repr

mutual

/-- Python `repr()` of a JSON-shaped value (no escape handling). -/
def pyRepr : JVal → String
  | JVal.null => "None"
  | JVal.bool true => "True"
  | JVal.bool false => "False"
  | JVal.num n => toString n
  | JVal.str s => "'" ++ s ++ "'"
  | JVal.arr xs => "[" ++ pyReprList xs ++ "]"
  | JVal.obj fs => "\x7b" ++ pyReprFields fs ++ "\x7d"

/-- Comma-separated `repr` of list elements. -/
def pyReprList : List JVal → String
  | [] => ""
  | [x] => pyRepr x
  | x :: y :: xs => pyRepr x ++ ", " ++ pyReprList (y :: xs)

/-- Comma-separated `repr` of dict entries. -/
def pyReprFields : List (String × JVal) → String
  | [] => ""
  | [(k, v)] => "'" ++ k ++ "': " ++ pyRepr v
  | (k, v) :: f :: fs => "'" ++ k ++ "': " ++ pyRepr v ++ ", " ++ pyReprFields (f :: fs)

end

/-- Python `str()` of a JSON-shaped value: strings print bare, everything
else as `repr` (so `str(None) = "None"`). -/
def pyStr : JVal → String
  | JVal.str s => s
  | v => pyRepr v

/-- Python truthiness of a JSON-shaped value. -/
def pyTruthy : JVal → Bool
  | JVal.null => false
  | JVal.bool b => b
  | JVal.num n => n != 0
  | JVal.str s => s != ""
  | JVal.arr xs => !xs.isEmpty
  | JVal.obj fs => !fs.isEmpty

/-- Python `a or b` on JSON-shaped values. -/
def pyOrJ (a b : JVal) : JVal := if pyTruthy a then a else b

/-- Python `a or b` where `a` is a string (`""` is falsy). -/
def pyOrS (a : String) (b : String) : String := if a = "" then b else a

/-- Python `dict.get(key)` on an actual dict (the field list of a decoded
JSON object): the value if the key is present, else `None`.  On a non-dict
receiver CPython raises `AttributeError` instead; that case is kept out of
this function and modelled explicitly at the call site. -/
def dictGet (fs : List (String × JVal)) (key : String) : JVal :=
  (fs.lookup key).getD JVal.null

/-- Python `str()` of an `Optional[int]` (`None` prints as "None"). -/
def pyStrOptNat : Option Nat → String
  | none => "None"
  | some n => toString n

/-- Python `x or default` on an optional status code (None and 0 falsy). -/
def pyOrNat (a : Option Nat) (b : Nat) : Nat :=
  match a with
  | none => b
  | some n => if n = 0 then b else n

/-- Whether `pat` is an initial segment of `s` (on character lists). -/
def charsLeadWith : List Char → List Char → Bool
  | [], _ => true
  | _ :: _, [] => false
  | p :: ps, c :: cs => p == c && charsLeadWith ps cs

/-- Whether `pat` occurs somewhere inside `s` (on character lists). -/
def charsContain (s pat : List Char) : Bool :=
  match s with
  | [] => pat.isEmpty
  | c :: cs => charsLeadWith pat (c :: cs) || charsContain cs pat

/-- Substring test: the Python operator `pat in s`. -/
def strContains (s pat : String) : Bool := charsContain s.data pat.data

/-! ## Region table (auth.py RUCKUS_REGIONS) -/

/-- The fixed region → host dictionary. -/
def RUCKUS_REGIONS : List (String × String) :=
  [("na", "api.ruckus.cloud"),
   ("eu", "api.eu.ruckus.cloud"),
   ("asia", "api.asia.ruckus.cloud")]

/-- The expression `RUCKUS_REGIONS.get(region, RUCKUS_REGIONS["na"])` followed by the
f-string `"https://..."`; this expression appears verbatim in both
`Auth.__init__` and `RuckusOneClient.__init__`. -/
def region_base_url (region : String) : String :=
  "https://" ++ ((RUCKUS_REGIONS.lookup region).getD
    ((RUCKUS_REGIONS.lookup "na").getD ""))

/-! ## Exceptions (exceptions.py) -/

/-- Error-class tag, one per concrete exception class raised by the core:
`generic` is the `APIError` base class itself. -/
inductive ErrKind where
  | authentication
  | generic
  | notFound
  | validation
  | rateLimit
  | server
deriving Repr, DecidableEq

/-- A raised exception.  `AuthenticationError` stores nothing but its
message; `APIError` and its subclasses store `status_code`, `detail` and
`message` attributes (the subclass is recorded in the `ErrKind` tag). -/
inductive RaisedError where
  | authenticationError : String → RaisedError
  | apiError : ErrKind → Option Nat → JVal → String → RaisedError
deriving Repr

/-- The error kind (exception class) of a raised error. -/
def RaisedError.kindOf : RaisedError → ErrKind
  | RaisedError.authenticationError _ => ErrKind.authentication
  | RaisedError.apiError k _ _ _ => k

/-- The `status_code` attribute carried by a raised error, if any
(`AuthenticationError` has no such attribute). -/
def RaisedError.statusOf : RaisedError → Option Nat
  | RaisedError.authenticationError _ => none
  | RaisedError.apiError _ sc _ _ => sc

/-- The `message` attribute of a raised error. -/
def RaisedError.messageOf : RaisedError → String
  | RaisedError.authenticationError m => m
  | RaisedError.apiError _ _ _ m => m

/-- Model of `APIError.__init__`'s message computation:
`self.message = message or str(detail) or f"API Error (Status: ...)"`,
where `message=None` and `detail=None` are `none` / `JVal.null`. -/
def APIError.message_of (status_code : Option Nat) (detail : JVal)
    (message : Option String) : String :=
  pyOrS (pyOrS (message.getD "") (pyStr detail))
    ("API Error (Status: " ++ pyStrOptNat status_code ++ ")")

/-- Constructor `APIError(status_code=..., detail=..., message=...)`. -/
def mkAPIError (status_code : Option Nat) (detail : JVal)
    (message : Option String) : RaisedError :=
  RaisedError.apiError ErrKind.generic status_code detail
    (APIError.message_of status_code detail message)

/-- Constructor `ResourceNotFoundError(detail=..., message=...)`: delegates to
`APIError.__init__` with status 404 and default message. -/
def mkResourceNotFoundError (detail : JVal) (message : Option String) : RaisedError :=
  RaisedError.apiError ErrKind.notFound (some 404) detail
    (APIError.message_of (some 404) detail
      (some (pyOrS (message.getD "") "Resource not found")))

/-- Constructor `ValidationError(detail=..., message=...)`. -/
def mkValidationError (detail : JVal) (message : Option String) : RaisedError :=
  RaisedError.apiError ErrKind.validation (some 400) detail
    (APIError.message_of (some 400) detail
      (some (pyOrS (message.getD "") "Validation error")))

/-- Constructor `RateLimitError(detail=..., message=...)`. -/
def mkRateLimitError (detail : JVal) (message : Option String) : RaisedError :=
  RaisedError.apiError ErrKind.rateLimit (some 429) detail
    (APIError.message_of (some 429) detail
      (some (pyOrS (message.getD "") "Rate limit exceeded")))

/-- Constructor `ServerError(status_code=..., detail=..., message=...)`:
`status_code = status_code or 500`, default message mentioning it. -/
def mkServerError (status_code : Option Nat) (detail : JVal)
    (message : Option String) : RaisedError :=
  RaisedError.apiError ErrKind.server (some (pyOrNat status_code 500)) detail
    (APIError.message_of (some (pyOrNat status_code 500)) detail
      (some (pyOrS (message.getD "")
        ("Server error occurred (Status: " ++ toString (pyOrNat status_code 500) ++ ")"))))

/-! ## TokenAuthority (auth.py Auth) -/

/-- The JSON body of a token-endpoint response, restricted to the two
fields the code reads; `none` = field absent. -/
structure TokenBody where
  access_token : Option String
  expires_in : Option Int
deriving Repr, DecidableEq

/-- Outcome of the one `requests.post` in `Auth._authenticate`:
either a response (status, HTTP reason phrase, body text, decoded JSON
body with `none` for an undecodable body), or a `requests.RequestException`
raised by the transport itself with message `msg`. -/
inductive TransportResult where
  | response : Nat → String → String → Option TokenBody → TransportResult
  | exn : String → TransportResult
deriving Repr, DecidableEq

/-- The mutable and constructor-supplied attributes of an `Auth` instance
(the leading underscore of `_token` / `_token_expiry` is dropped). -/
structure AuthState where
  client_id : String
  client_secret : String
  tenant_id : String
  region : String
  base_url : String
  token : Option String
  token_expiry : Int
deriving Repr, DecidableEq

/-- Model of `Auth.__init__(client_id, client_secret, tenant_id, region)` called at
time `now` (`self._token = None`, `self._token_expiry = datetime.now()`). -/
def Auth.init (client_id client_secret tenant_id region : String)
    (now : Int) : AuthState :=
  { client_id := client_id
    client_secret := client_secret
    tenant_id := tenant_id
    region := region
    base_url := region_base_url region
    token := none
    token_expiry := now }

/-- Model of `str(e)` for the `requests.HTTPError` raised by
`response.raise_for_status()` on a 4xx/5xx status. -/
def httpErrorStr (status : Nat) (reason url : String) : String :=
  if status < 500 then
    toString status ++ " Client Error: " ++ reason ++ " for url: " ++ url
  else
    toString status ++ " Server Error: " ++ reason ++ " for url: " ++ url

/-- Model of `str(e)` for the `requests.exceptions.JSONDecodeError` raised by
`response.json()` on a body that is not valid JSON (the CPython message
for an immediately-invalid document). -/
def jsonDecodeErrorStr : String := "Expecting value: line 1 column 1 (char 0)"

/-- Result of `Auth._authenticate`: the returned `(token, expiry)` pair or
a raised `AuthenticationError` message. -/
inductive AuthOutcome where
  | ok : String → Int → AuthOutcome
  | authError : String → AuthOutcome
deriving Repr, DecidableEq

/-- Model of `Auth._authenticate(self)` run at time `now`, with `tr` the outcome of
its `requests.post` to `token_url`.  Mirrors auth.py lines 64-109:
`raise_for_status()` raises for statuses 400-599 (wrapped by the
`except requests.RequestException` clause), an undecodable JSON body
raises a JSONDecodeError (also wrapped), a body without `access_token`
raises `AuthenticationError("No access token in response")`, and otherwise
the token is returned with expiry `now + (expires_in - 300)` where a
missing `expires_in` defaults to 3600 (`data.get('expires_in', 3600)`). -/
def authenticate (a : AuthState) (now : Int) (tr : TransportResult) : AuthOutcome :=
  let token_url := a.base_url ++ "/oauth2/token/" ++ a.tenant_id
  match tr with
  | TransportResult.exn msg =>
      AuthOutcome.authError ("Authentication failed: " ++ msg)
  | TransportResult.response status reason _text body =>
      if 400 ≤ status ∧ status < 600 then
        AuthOutcome.authError
          ("Authentication failed: " ++ httpErrorStr status reason token_url)
      else
        match body with
        | none =>
            AuthOutcome.authError ("Authentication failed: " ++ jsonDecodeErrorStr)
        | some data =>
            match data.access_token with
            | none => AuthOutcome.authError "No access token in response"
            | some tok =>
                AuthOutcome.ok tok (now + ((data.expires_in.getD 3600) - 300))

/-- The cache-refresh condition of `Auth.get_token`:
`self._token is None or datetime.now() >= self._token_expiry`. -/
def needsRefresh (a : AuthState) (now : Int) : Prop :=
  a.token = none ∨ a.token_expiry ≤ now

instance (a : AuthState) (now : Int) : Decidable (needsRefresh a now) :=
  inferInstanceAs (Decidable (_ ∨ _))

/-- Result of a `get_token` call: the returned token or raised error, the
state of the `Auth` object after the call, and how many authentication
exchanges the call performed (0 or 1). -/
structure GetTokenResult where
  result : Except RaisedError String
  state : AuthState
  exchanges : Nat
deriving Repr

/-- Model of `Auth.get_token(self)` at time `now` with transport oracle `tr`
(consulted only if an exchange happens).  A failed `_authenticate` raises
before the tuple assignment, leaving `_token`/`_token_expiry` unchanged. -/
def get_token (a : AuthState) (now : Int) (tr : TransportResult) : GetTokenResult :=
  if needsRefresh a now then
    match authenticate a now tr with
    | AuthOutcome.ok t e =>
        { result := Except.ok t
          state := { a with token := some t, token_expiry := e }
          exchanges := 1 }
    | AuthOutcome.authError m =>
        { result := Except.error (RaisedError.authenticationError m)
          state := a
          exchanges := 1 }
  else
    { result := Except.ok (a.token.getD "")
      state := a
      exchanges := 0 }

/-- Model of `Auth.refresh_token(self)` at time `now`: unconditional
re-authentication; a failure raises before the assignment. -/
def refresh_token (a : AuthState) (now : Int) (tr : TransportResult) :
    Except RaisedError Unit × AuthState :=
  match authenticate a now tr with
  | AuthOutcome.ok t e =>
      (Except.ok (), { a with token := some t, token_expiry := e })
  | AuthOutcome.authError m =>
      (Except.error (RaisedError.authenticationError m), a)

/-- Result of a `get_auth_headers` call. -/
structure AuthHeadersResult where
  result : Except RaisedError (List (String × String))
  state : AuthState
  exchanges : Nat
deriving Repr

/-- Model of `Auth.get_auth_headers(self)`: builds the bearer header from
`self.get_token()`. -/
def get_auth_headers (a : AuthState) (now : Int) (tr : TransportResult) :
    AuthHeadersResult :=
  let r := get_token a now tr
  match r.result with
  | Except.ok t =>
      { result := Except.ok
          [("Authorization", "Bearer " ++ t),
           ("Content-Type", "application/json")]
        state := r.state
        exchanges := r.exchanges }
  | Except.error e =>
      { result := Except.error e, state := r.state, exchanges := r.exchanges }

/-! ## ApiGateway (client.py RuckusOneClient) -/

/-- An HTTP response as seen by `RuckusOneClient.request`:
`status_code`, the `Content-Type` header (`headers.get('Content-Type','')`),
the raw body `content` (bytes, `""` = empty), the result of
`response.json()` (`none` = the body is not valid JSON, so `json()`
raises), the message of that decode error, and `response.text`. -/
structure Response where
  status_code : Nat
  content_type : String
  content : String
  json : Option JVal
  json_err : String
  text : String
deriving Repr

/-- Outcome of the one `requests.request` call inside
`RuckusOneClient.request`: a response, or a transport-level
`requests.RequestException` with message `msg`. -/
inductive CallResult where
  | resp : Response → CallResult
  | exn : String → CallResult
deriving Repr

/-- The JSON-content-type test used (twice) in client.py:
`'application/json' in content_type or 'json' in content_type`. -/
def isJsonContentType (content_type : String) : Bool :=
  strContains content_type "application/json" || strContains content_type "json"

/-- What a `_handle_error_response` call does: raise one of the classified
SDK errors, or let an uncaught Python `AttributeError` escape (raised by
`error_data.get('message')` at client.py line 195 when the decoded JSON
error body is not a dict; neither the local `except ValueError` nor the
caller's `except requests.RequestException` catches it). -/
inductive ClassifyOutcome where
  | raised : RaisedError → ClassifyOutcome
  | attributeError : ClassifyOutcome
deriving Repr

/-- The status-code dispatch of `_handle_error_response` (client.py lines
199-217), applied to an already-extracted `error_detail`. -/
def classifyStatus (status_code : Nat) (error_detail : JVal) : RaisedError :=
  if status_code = 401 then
    RaisedError.authenticationError
      ("Authentication failed: " ++ pyStr error_detail)
  else if status_code = 404 then
    mkResourceNotFoundError error_detail none
  else if status_code = 400 then
    mkValidationError error_detail none
  else if status_code = 429 then
    mkRateLimitError error_detail none
  else if 500 ≤ status_code ∧ status_code < 600 then
    mkServerError (some status_code) error_detail none
  else
    mkAPIError (some status_code) error_detail
      (some ("API error occurred: " ++ pyStr error_detail))

/-- Model of `RuckusOneClient._handle_error_response(self, response)`:
extracts `error_detail` from a JSON error body
(`error_data.get('message') or error_data.get('error') or error_data`,
falling back to `response.text` when `json()` raises ValueError, and
staying `None` for an empty or non-JSON body), then dispatches on the
status code.  When the decoded body is valid JSON but not an object,
`error_data.get('message')` raises an uncaught `AttributeError` and no
classified error is raised at all. -/
def handle_error_response (r : Response) : ClassifyOutcome :=
  if r.content ≠ "" ∧ isJsonContentType r.content_type then
    match r.json with
    | some (JVal.obj fs) =>
        ClassifyOutcome.raised (classifyStatus r.status_code
          (pyOrJ (dictGet fs "message")
            (pyOrJ (dictGet fs "error") (JVal.obj fs))))
    | some _ => ClassifyOutcome.attributeError
    | none =>
        ClassifyOutcome.raised (classifyStatus r.status_code (JVal.str r.text))
  else ClassifyOutcome.raised (classifyStatus r.status_code JVal.null)

/-- A successful `request` return value: the raw response object
(`raw_response=True`), the decoded JSON structure, or the raw body bytes
(`response.content`, also the path taken for an empty body). -/
inductive RequestValue where
  | raw : Response → RequestValue
  | jsonData : JVal → RequestValue
  | content : String → RequestValue
deriving Repr

/-- Python `dict.update`: entries of `upd` override entries of `base`. -/
def dictUpdate (base upd : List (String × String)) : List (String × String) :=
  base.filter (fun p => (upd.lookup p.fst).isNone) ++ upd

/-- How a `request` call can fail: by raising one of the SDK's own typed
errors, or by letting the classifier's uncaught `AttributeError` escape
(it is not a `requests.RequestException`, so the `except` clause in
`request` does not catch it either). -/
inductive RequestFailure where
  | raised : RaisedError → RequestFailure
  | attributeError : RequestFailure
deriving Repr

/-- Result of a `RuckusOneClient.request` call: the value or raised error,
the `Auth` state afterwards, the headers the transport call was issued
with (`none` = the transport call was never made), and the number of
authentication exchanges performed. -/
structure RequestOutcome where
  result : Except RequestFailure RequestValue
  state : AuthState
  sentHeaders : Option (List (String × String))
  authExchanges : Nat
deriving Repr

/-- Model of `RuckusOneClient.request(self, method, path, ...)` at time `now`.
`authTr` is the transport oracle for a token exchange (if one happens) and
`call` the outcome of the one `requests.request` to the target URL.
Mirrors client.py lines 109-171: auth headers are obtained (outside the
`try` block) before the transport call, custom headers are merged on top,
2xx responses are returned raw / JSON-decoded / as bytes, other statuses
go through `_handle_error_response`, and a `requests.RequestException`
(from the transport, or from the success-path `response.json()`) becomes
`APIError(message=f"Request failed: ...")`.  URL construction and logging
are elided: they do not affect any verified observable. -/
def request (a : AuthState) (now : Int) (authTr : TransportResult)
    (headers : Option (List (String × String)))
    (call : CallResult) (raw_response : Bool) : RequestOutcome :=
  let ah := get_auth_headers a now authTr
  match ah.result with
  | Except.error e =>
      { result := Except.error (RequestFailure.raised e)
        state := ah.state
        sentHeaders := none
        authExchanges := ah.exchanges }
  | Except.ok base_headers =>
      let request_headers :=
        match headers with
        | some h => dictUpdate base_headers h
        | none => base_headers
      match call with
      | CallResult.exn msg =>
          { result := Except.error (RequestFailure.raised
              (mkAPIError none JVal.null (some ("Request failed: " ++ msg))))
            state := ah.state
            sentHeaders := some request_headers
            authExchanges := ah.exchanges }
      | CallResult.resp r =>
          let out : Except RequestFailure RequestValue :=
            if 200 ≤ r.status_code ∧ r.status_code < 300 then
              if raw_response then Except.ok (RequestValue.raw r)
              else if r.content ≠ "" ∧ isJsonContentType r.content_type then
                match r.json with
                | some j => Except.ok (RequestValue.jsonData j)
                | none =>
                    Except.error (RequestFailure.raised (mkAPIError none JVal.null
                      (some ("Request failed: " ++ r.json_err))))
              else Except.ok (RequestValue.content r.content)
            else
              match handle_error_response r with
              | ClassifyOutcome.raised e =>
                  Except.error (RequestFailure.raised e)
              | ClassifyOutcome.attributeError =>
                  Except.error RequestFailure.attributeError
          { result := out
            state := ah.state
            sentHeaders := some request_headers
            authExchanges := ah.exchanges }

/-! ## Concrete sample states used to instantiate theorems -/

/-- An `Auth` freshly constructed at time 0 (no token cached). -/
def sampleAuthNew : AuthState := Auth.init "i" "s" "t" "na" 0

/-- An `Auth` holding a cached token with recorded expiry 100. -/
def sampleAuthCached : AuthState :=
  { client_id := "i"
    client_secret := "s"
    tenant_id := "t"
    region := "na"
    base_url := "https://api.ruckus.cloud"
    token := some "tok"
    token_expiry := 100 }

/-! ## Theorems for the claims -/

/-- C1: `Auth.get_token` returns the cached token with no authentication
exchange whenever a token is cached and now is strictly before its
recorded expiry; whenever no token is cached or now has reached the
recorded expiry it performs exactly one exchange, caches the returned
token and expiry and returns the new token; and a fresh-authentication
call followed by a second call before the new expiry performs exactly one
exchange in total. -/
theorem C1_token_caching (a : AuthState) (now : Int) (tr : TransportResult) :
    (∀ tok, a.token = some tok → now < a.token_expiry →
      get_token a now tr = ⟨Except.ok tok, a, 0⟩)
    ∧ (needsRefresh a now →
        (get_token a now tr).exchanges = 1
        ∧ ∀ t e, authenticate a now tr = AuthOutcome.ok t e →
            get_token a now tr =
              ⟨Except.ok t, { a with token := some t, token_expiry := e }, 1⟩)
    ∧ (∀ t e now2 tr2, a.token = none →
        authenticate a now tr = AuthOutcome.ok t e → now2 < e →
        (get_token a now tr).exchanges
            + (get_token (get_token a now tr).state now2 tr2).exchanges = 1
        ∧ (get_token (get_token a now tr).state now2 tr2).result = Except.ok t) := by
  refine ⟨?_, ?_, ?_⟩
  · intro tok htok hlt
    have hnr : ¬ needsRefresh a now := by
      unfold needsRefresh
      push_neg
      exact ⟨by simp [htok], by omega⟩
    simp [get_token, hnr, htok]
  · intro hnr
    constructor
    · simp only [get_token, if_pos hnr]
      cases authenticate a now tr <;> simp
    · intro t e hauth
      simp [get_token, hnr, hauth]
  · intro t e now2 tr2 htok hauth hlt
    have hnr : needsRefresh a now := Or.inl htok
    have h1 : get_token a now tr =
        ⟨Except.ok t, { a with token := some t, token_expiry := e }, 1⟩ := by
      simp [get_token, hnr, hauth]
    have hnr2 : ¬ needsRefresh { a with token := some t, token_expiry := e } now2 := by
      unfold needsRefresh
      push_neg
      refine ⟨by simp, ?_⟩
      show now2 < e
      omega
    rw [h1]
    simp [get_token, hnr2]

/-- C1 witness: a cached token with expiry 100 read at time 50 is returned
as-is with zero exchanges. -/
theorem C1_token_caching_witness :
    get_token sampleAuthCached 50 (TransportResult.exn "boom")
      = ⟨Except.ok "tok", sampleAuthCached, 0⟩ :=
  (C1_token_caching sampleAuthCached 50 (TransportResult.exn "boom")).1
    "tok" rfl (by decide)

/-- C2: a successful 2xx token exchange declaring `expires_in` seconds
caches expiry `now + (expires_in - 300)`; for `expires_in = 3600` that is
`now + 3300`, not `now + 3600`. -/
theorem C2_safety_margin (a : AuthState) (now ei : Int)
    (tok reason text : String) (status : Nat)
    (h2xx : 200 ≤ status ∧ status < 300) :
    authenticate a now
        (TransportResult.response status reason text (some ⟨some tok, some ei⟩))
      = AuthOutcome.ok tok (now + (ei - 300))
    ∧ (ei = 3600 →
        authenticate a now
            (TransportResult.response status reason text (some ⟨some tok, some ei⟩))
          = AuthOutcome.ok tok (now + 3300)
        ∧ now + 3300 ≠ now + 3600) := by
  have h46 : ¬(400 ≤ status ∧ status < 600) := by omega
  refine ⟨by simp [authenticate, h46], ?_⟩
  intro hei
  subst hei
  refine ⟨by simp [authenticate, h46], by omega⟩

/-- C2 witness: a 200 exchange with `expires_in = 3600` at time 10 caches
expiry 3310. -/
theorem C2_safety_margin_witness :
    authenticate sampleAuthNew 10
        (TransportResult.response 200 "OK" "b" (some ⟨some "tok", some 3600⟩))
      = AuthOutcome.ok "tok" 3310 :=
  (C2_safety_margin sampleAuthNew 10 3600 "tok" "OK" "b" 200 (by decide)).1

/-- C5: whenever `Auth._authenticate` fails, both `get_token` and
`refresh_token` raise that `AuthenticationError` and leave the cached
token and recorded expiry exactly as they were (whatever the prior state
was, including `NoToken`). -/
theorem C5_failed_auth_preserves_state (a : AuthState) (now : Int)
    (tr : TransportResult) (m : String)
    (h : authenticate a now tr = AuthOutcome.authError m) :
    (get_token a now tr).state = a
    ∧ (needsRefresh a now →
        (get_token a now tr).result
          = Except.error (RaisedError.authenticationError m))
    ∧ (refresh_token a now tr).snd = a
    ∧ (refresh_token a now tr).fst
        = Except.error (RaisedError.authenticationError m) := by
  refine ⟨?_, ?_, ?_, ?_⟩
  · by_cases hnr : needsRefresh a now
    · simp [get_token, hnr, h]
    · simp [get_token, hnr]
  · intro hnr
    simp [get_token, hnr, h]
  · simp [refresh_token, h]
  · simp [refresh_token, h]

/-- C5 witness: a transport failure from the `NoToken` state raises and
caches nothing. -/
theorem C5_failed_auth_preserves_state_witness :
    (get_token sampleAuthNew 0 (TransportResult.exn "boom")).state = sampleAuthNew
    ∧ (get_token sampleAuthNew 0 (TransportResult.exn "boom")).result
        = Except.error
            (RaisedError.authenticationError "Authentication failed: boom") :=
  ⟨(C5_failed_auth_preserves_state sampleAuthNew 0
      (TransportResult.exn "boom") "Authentication failed: boom" rfl).1,
   (C5_failed_auth_preserves_state sampleAuthNew 0
      (TransportResult.exn "boom") "Authentication failed: boom" rfl).2.1
     (Or.inl rfl)⟩

/-- C9: the three known region codes resolve to their mapped hosts, every
other region code resolves (without failing) to the same base host as
"na", and `Auth.__init__` / `RuckusOneClient.__init__` use exactly this
resolution. -/
theorem C9_region_fallback (r cid cs tid : String) (now : Int)
    (h : r ∉ ["na", "eu", "asia"]) :
    region_base_url "na" = "https://api.ruckus.cloud"
    ∧ region_base_url "eu" = "https://api.eu.ruckus.cloud"
    ∧ region_base_url "asia" = "https://api.asia.ruckus.cloud"
    ∧ region_base_url r = region_base_url "na"
    ∧ (Auth.init cid cs tid r now).base_url = "https://api.ruckus.cloud" := by
  simp only [List.mem_cons, List.not_mem_nil, or_false, not_or] at h
  have hb1 : (r == "na") = false := beq_eq_false_iff_ne.mpr h.1
  have hb2 : (r == "eu") = false := beq_eq_false_iff_ne.mpr h.2.1
  have hb3 : (r == "asia") = false := beq_eq_false_iff_ne.mpr h.2.2
  have hlook : RUCKUS_REGIONS.lookup r = none := by
    simp [RUCKUS_REGIONS, List.lookup, hb1, hb2, hb3]
  refine ⟨rfl, rfl, rfl, ?_, ?_⟩
  · simp [region_base_url, hlook]
    rfl
  · simp [Auth.init, region_base_url, hlook]
    rfl

/-- C9 witness: the unknown region code "xx" resolves like "na". -/
theorem C9_region_fallback_witness :
    region_base_url "xx" = region_base_url "na"
    ∧ (Auth.init "i" "s" "t" "xx" 0).base_url = "https://api.ruckus.cloud" :=
  ⟨(C9_region_fallback "xx" "i" "s" "t" 0 (by decide)).2.2.2.1,
   (C9_region_fallback "xx" "i" "s" "t" 0 (by decide)).2.2.2.2⟩

/-- C10: if `Auth.get_token` raises inside `get_auth_headers`, then
`RuckusOneClient.request` propagates exactly that error and the transport
call to the target URL is never issued (auth headers are obtained before
the transport call). -/
theorem C10_auth_failure_blocks_request (a : AuthState) (now : Int)
    (authTr : TransportResult) (headers : Option (List (String × String)))
    (call : CallResult) (raw_response : Bool) (e : RaisedError)
    (h : (get_token a now authTr).result = Except.error e) :
    (request a now authTr headers call raw_response).result
      = Except.error (RequestFailure.raised e)
    ∧ (request a now authTr headers call raw_response).sentHeaders = none := by
  constructor <;> simp [request, get_auth_headers, h]

/-- C10 witness: from the `NoToken` state with a failing transport, the
request raises the `AuthenticationError` and sends nothing. -/
theorem C10_auth_failure_blocks_request_witness :
    (request sampleAuthNew 0 (TransportResult.exn "boom") none
        (CallResult.exn "never reached") false).result
      = Except.error (RequestFailure.raised
          (RaisedError.authenticationError "Authentication failed: boom"))
    ∧ (request sampleAuthNew 0 (TransportResult.exn "boom") none
        (CallResult.exn "never reached") false).sentHeaders = none :=
  C10_auth_failure_blocks_request sampleAuthNew 0 (TransportResult.exn "boom")
    none (CallResult.exn "never reached") false
    (RaisedError.authenticationError "Authentication failed: boom") rfl

/-- C3 counterexample, two concrete non-2xx responses: (1) on a 401 the
raised error is an `AuthenticationError`, which carries no status code at
all (its only attribute is the message); (2) on a 404 whose JSON body
decodes to the non-dict `[1]`, `error_data.get('message')` raises an
uncaught `AttributeError`, so no classified error is raised at all.  Both
refute "the raised error kind is determined exactly by the status code
... and each raised error carries the original status code". -/
theorem C3_counterexample :
    handle_error_response
        ⟨401, "application/json", "x",
         some (JVal.obj [("message", JVal.str "bad token")]), "", "x"⟩
      = ClassifyOutcome.raised
          (RaisedError.authenticationError "Authentication failed: bad token")
    ∧ (RaisedError.authenticationError "Authentication failed: bad token").statusOf
        = none
    ∧ handle_error_response
        ⟨404, "application/json", "[1]", some (JVal.arr [JVal.num 1]), "", "[1]"⟩
      = ClassifyOutcome.attributeError := ⟨rfl, rfl, rfl⟩

/-- Helper: whenever `_handle_error_response` raises a classified error,
that error is the status dispatch applied to some extracted detail. -/
theorem handle_error_raised_eq (r : Response) (e : RaisedError)
    (h : handle_error_response r = ClassifyOutcome.raised e) :
    ∃ d, e = classifyStatus r.status_code d := by
  unfold handle_error_response at h
  split at h
  · split at h
    · exact ⟨_, by injection h with h2; exact h2.symm⟩
    · exact absurd h (by simp)
    · exact ⟨_, by injection h with h2; exact h2.symm⟩
  · exact ⟨_, by injection h with h2; exact h2.symm⟩

/-- Helper: the status-code → error-kind dispatch table of
`classifyStatus`, with the status carried by each error. -/
theorem classifyStatus_spec (s : Nat) (d : JVal) :
    (s = 401 →
        (classifyStatus s d).kindOf = ErrKind.authentication
        ∧ (classifyStatus s d).statusOf = none)
    ∧ (s = 404 →
        (classifyStatus s d).kindOf = ErrKind.notFound
        ∧ (classifyStatus s d).statusOf = some 404)
    ∧ (s = 400 →
        (classifyStatus s d).kindOf = ErrKind.validation
        ∧ (classifyStatus s d).statusOf = some 400)
    ∧ (s = 429 →
        (classifyStatus s d).kindOf = ErrKind.rateLimit
        ∧ (classifyStatus s d).statusOf = some 429)
    ∧ (500 ≤ s ∧ s < 600 →
        (classifyStatus s d).kindOf = ErrKind.server
        ∧ (classifyStatus s d).statusOf = some s)
    ∧ (s ≠ 401 → s ≠ 404 → s ≠ 400 → s ≠ 429 → ¬(500 ≤ s ∧ s < 600) →
        (classifyStatus s d).kindOf = ErrKind.generic
        ∧ (classifyStatus s d).statusOf = some s) := by
  refine ⟨?_, ?_, ?_, ?_, ?_, ?_⟩
  · intro hs
    simp [classifyStatus, hs, RaisedError.kindOf, RaisedError.statusOf]
  · intro hs
    simp [classifyStatus, hs, mkResourceNotFoundError,
      RaisedError.kindOf, RaisedError.statusOf]
  · intro hs
    simp [classifyStatus, hs, mkValidationError,
      RaisedError.kindOf, RaisedError.statusOf]
  · intro hs
    simp [classifyStatus, hs, mkRateLimitError,
      RaisedError.kindOf, RaisedError.statusOf]
  · intro hs
    have h1 : s ≠ 401 := by omega
    have h2 : s ≠ 404 := by omega
    have h3 : s ≠ 400 := by omega
    have h4 : s ≠ 429 := by omega
    have h0 : s ≠ 0 := by omega
    simp [classifyStatus, h1, h2, h3, h4, hs, mkServerError, pyOrNat, h0,
      RaisedError.kindOf, RaisedError.statusOf]
  · intro h1 h2 h3 h4 h5
    simp [classifyStatus, h1, h2, h3, h4, h5, mkAPIError,
      RaisedError.kindOf, RaisedError.statusOf]

/-- C3 (amended): when `_handle_error_response` raises a classified error,
its kind is determined exactly by the status code (401 → Authentication,
404 → NotFound, 400 → Validation, 429 → RateLimit, 500-599 → Server, any
other non-2xx → generic APIError), and the 404/400/429/5xx/generic errors
carry the original status code while the 401 `AuthenticationError` carries
no status code; however, when the non-empty JSON-typed body decodes to a
non-object, no classified error is raised at all — an uncaught
`AttributeError` escapes instead. -/
theorem C3_status_classification (r : Response)
    (_h : ¬(200 ≤ r.status_code ∧ r.status_code < 300)) :
    (∀ v, r.content ≠ "" → isJsonContentType r.content_type = true →
        r.json = some v → (∀ fs, v ≠ JVal.obj fs) →
        handle_error_response r = ClassifyOutcome.attributeError)
    ∧ (∀ e, handle_error_response r = ClassifyOutcome.raised e →
        (r.status_code = 401 →
            e.kindOf = ErrKind.authentication ∧ e.statusOf = none)
        ∧ (r.status_code = 404 →
            e.kindOf = ErrKind.notFound ∧ e.statusOf = some 404)
        ∧ (r.status_code = 400 →
            e.kindOf = ErrKind.validation ∧ e.statusOf = some 400)
        ∧ (r.status_code = 429 →
            e.kindOf = ErrKind.rateLimit ∧ e.statusOf = some 429)
        ∧ (500 ≤ r.status_code ∧ r.status_code < 600 →
            e.kindOf = ErrKind.server ∧ e.statusOf = some r.status_code)
        ∧ (r.status_code ≠ 401 → r.status_code ≠ 404 → r.status_code ≠ 400 →
            r.status_code ≠ 429 →
            ¬(500 ≤ r.status_code ∧ r.status_code < 600) →
            e.kindOf = ErrKind.generic ∧ e.statusOf = some r.status_code)) := by
  constructor
  · intro v hc hct hj hnobj
    cases v with
    | obj fs => exact absurd rfl (hnobj fs)
    | null => simp [handle_error_response, hc, hct, hj]
    | bool b => simp [handle_error_response, hc, hct, hj]
    | num n => simp [handle_error_response, hc, hct, hj]
    | str s2 => simp [handle_error_response, hc, hct, hj]
    | arr xs => simp [handle_error_response, hc, hct, hj]
  · intro e he
    obtain ⟨d, rfl⟩ := handle_error_raised_eq r e he
    exact classifyStatus_spec r.status_code d

/-- C3 witness: a 404 with a JSON object body maps to
`ResourceNotFoundError` carrying status 404, while a 404 whose JSON body
is the array `[1]` lets the `AttributeError` escape. -/
theorem C3_status_classification_witness :
    handle_error_response
        ⟨404, "application/json", "[1]", some (JVal.arr [JVal.num 1]), "", "[1]"⟩
      = ClassifyOutcome.attributeError
    ∧ (mkResourceNotFoundError (JVal.str "nope") none).kindOf = ErrKind.notFound
    ∧ (mkResourceNotFoundError (JVal.str "nope") none).statusOf = some 404 :=
  ⟨(C3_status_classification
       ⟨404, "application/json", "[1]", some (JVal.arr [JVal.num 1]), "", "[1]"⟩
       (by decide)).1
     (JVal.arr [JVal.num 1]) (by decide) (by decide) rfl
     (by intro fs h; exact JVal.noConfusion h),
   ((C3_status_classification
       ⟨404, "application/json", "x",
        some (JVal.obj [("message", JVal.str "nope")]), "", "x"⟩
       (by decide)).2
     (mkResourceNotFoundError (JVal.str "nope") none) rfl).2.1 rfl⟩

/-- C4 counterexample, one concrete input per divergence from the claim's
iff: (1) a 200 body with an `access_token` but no `expires_in` succeeds
with the 3600-second default (claim: lacking `expires_in` raises);
(2) a 303 response with a valid token body succeeds, although 303 is not
2xx (claim: every non-2xx status raises — `raise_for_status` only raises
for 400-599); (3) a 401 raises a message built from the HTTP error's
status, reason and url in which the response body "SECRETBODY" does not
occur (claim: the error carries the response body as detail); (4) a 200
response whose body is not decodable JSON raises, a condition absent from
the claim's list (it is a json-decode failure, not a failure of the
transport layer). -/
theorem C4_counterexample :
    authenticate (Auth.init "i" "s" "t" "na" 0) 0
        (TransportResult.response 200 "OK" "body" (some ⟨some "tok", none⟩))
      = AuthOutcome.ok "tok" 3300
    ∧ authenticate (Auth.init "i" "s" "t" "na" 0) 0
        (TransportResult.response 303 "See Other" "body"
          (some ⟨some "tok", some 3600⟩))
      = AuthOutcome.ok "tok" 3300
    ∧ authenticate (Auth.init "i" "s" "t" "na" 0) 0
        (TransportResult.response 401 "Unauthorized" "SECRETBODY" none)
      = AuthOutcome.authError
          "Authentication failed: 401 Client Error: Unauthorized for url: https://api.ruckus.cloud/oauth2/token/t"
    ∧ strContains
        "Authentication failed: 401 Client Error: Unauthorized for url: https://api.ruckus.cloud/oauth2/token/t"
        "SECRETBODY" = false
    ∧ authenticate (Auth.init "i" "s" "t" "na" 0) 0
        (TransportResult.response 200 "OK" "notjson" none)
      = AuthOutcome.authError
          ("Authentication failed: " ++ jsonDecodeErrorStr) := by
  refine ⟨by decide, by decide, by decide, by decide, by decide⟩

/-- C4 (amended): `Auth._authenticate` raises `AuthenticationError` if and
only if the transport call itself fails, or the response status is in
400-599 (what `raise_for_status` raises for), or the body is not
decodable JSON, or the decoded body lacks an `access_token` field; a body
lacking `expires_in` does not fail — the lifetime defaults to 3600
seconds, and on success the returned expiry is
`now + (expires_in_or_3600 - 300)`. -/
theorem C4_auth_error_conditions (a : AuthState) (now : Int)
    (tr : TransportResult) :
    ((∃ m, authenticate a now tr = AuthOutcome.authError m) ↔
      ((∃ msg, tr = TransportResult.exn msg)
       ∨ (∃ s reason text body,
            tr = TransportResult.response s reason text body
            ∧ ((400 ≤ s ∧ s < 600)
               ∨ body = none
               ∨ (∃ d, body = some d ∧ d.access_token = none)))))
    ∧ (∀ s reason text d tok,
        tr = TransportResult.response s reason text (some d) →
        d.access_token = some tok → ¬(400 ≤ s ∧ s < 600) →
        authenticate a now tr
          = AuthOutcome.ok tok (now + (d.expires_in.getD 3600 - 300))) := by
  constructor
  · cases tr with
    | exn msg =>
        constructor
        · intro _
          exact Or.inl ⟨msg, rfl⟩
        · intro _
          exact ⟨"Authentication failed: " ++ msg, by simp [authenticate]⟩
    | response s reason text body =>
        by_cases h4 : 400 ≤ s ∧ s < 600
        · constructor
          · intro _
            exact Or.inr ⟨s, reason, text, body, rfl, Or.inl h4⟩
          · intro _
            exact ⟨"Authentication failed: "
                ++ httpErrorStr s reason (a.base_url ++ "/oauth2/token/" ++ a.tenant_id),
              by simp [authenticate, h4]⟩
        · cases body with
          | none =>
              constructor
              · intro _
                exact Or.inr ⟨s, reason, text, none, rfl, Or.inr (Or.inl rfl)⟩
              · intro _
                exact ⟨"Authentication failed: " ++ jsonDecodeErrorStr,
                  by simp [authenticate, h4]⟩
          | some d =>
              cases hat : d.access_token with
              | none =>
                  constructor
                  · intro _
                    exact Or.inr ⟨s, reason, text, some d, rfl,
                      Or.inr (Or.inr ⟨d, rfl, hat⟩)⟩
                  · intro _
                    exact ⟨"No access token in response",
                      by simp [authenticate, h4, hat]⟩
              | some tok =>
                  constructor
                  · rintro ⟨m, hm⟩
                    simp [authenticate, h4, hat] at hm
                  · rintro (⟨msg, heq⟩ | ⟨s2, r2, t2, b2, heq, hcond⟩)
                    · exact absurd heq (by simp)
                    · injection heq with e1 e2 e3 e4
                      subst e1
                      subst e4
                      rcases hcond with hc | hc | ⟨d2, hd2, hat2⟩
                      · exact absurd hc h4
                      · exact absurd hc (by simp)
                      · rw [show d2 = d from by injection hd2 with hh; exact hh.symm] at hat2
                        rw [hat] at hat2
                        exact absurd hat2 (by simp)
  · intro s reason text d tok heq hat h4
    subst heq
    simp [authenticate, h4, hat]

/-- C4 witness: a 201 response with `access_token` and `expires_in = 600`
succeeds with expiry `0 + (600 - 300) = 300`. -/
theorem C4_auth_error_conditions_witness :
    authenticate sampleAuthNew 0
        (TransportResult.response 201 "Created" "b" (some ⟨some "tok", some 600⟩))
      = AuthOutcome.ok "tok" 300 :=
  (C4_auth_error_conditions sampleAuthNew 0
      (TransportResult.response 201 "Created" "b"
        (some ⟨some "tok", some 600⟩))).2
    201 "Created" "b" ⟨some "tok", some 600⟩ "tok" rfl rfl (by decide)

/-- C6 counterexample: a fresh authentication whose 200 response declares
`expires_in = 300` returns the token, but its recorded expiry is
`0 + (300 - 300) = 0`, which is not strictly later than now (= 0) — the
claim that a returned token's recorded expiry is always strictly in the
future fails here. -/
theorem C6_counterexample :
    (get_token (Auth.init "i" "s" "t" "na" 0) 0
        (TransportResult.response 200 "OK" "b" (some ⟨some "tok", some 300⟩))).result
      = Except.ok "tok"
    ∧ (get_token (Auth.init "i" "s" "t" "na" 0) 0
        (TransportResult.response 200 "OK" "b"
          (some ⟨some "tok", some 300⟩))).state.token_expiry
        ≤ 0 := ⟨rfl, by decide⟩

/-- C6 (amended): a `get_token` call that returns a cached token (zero
exchanges) does so only when now is strictly before the recorded expiry;
a call that performs a fresh successful exchange records expiry
`now + (expires_in - 300)` — exactly 300 seconds before the
server-declared expiry `now + expires_in` — and that recorded expiry is
strictly later than now if and only if `expires_in > 300` (for
`expires_in ≤ 300` the token is returned although its recorded expiry has
already been reached). -/
theorem C6_no_expired_token (a : AuthState) (now ei : Int)
    (tok reason text : String) (s : Nat) (hs : ¬(400 ≤ s ∧ s < 600)) :
    ((get_token a now
        (TransportResult.response s reason text (some ⟨some tok, some ei⟩))).exchanges
          = 0 →
      now < a.token_expiry)
    ∧ (needsRefresh a now →
        (get_token a now
            (TransportResult.response s reason text (some ⟨some tok, some ei⟩))).result
          = Except.ok tok
        ∧ (get_token a now
            (TransportResult.response s reason text
              (some ⟨some tok, some ei⟩))).state.token_expiry
            = now + (ei - 300)
        ∧ (now + ei)
            - (get_token a now
                (TransportResult.response s reason text
                  (some ⟨some tok, some ei⟩))).state.token_expiry
            = 300
        ∧ (300 < ei ↔
            now < (get_token a now
              (TransportResult.response s reason text
                (some ⟨some tok, some ei⟩))).state.token_expiry)) := by
  constructor
  · intro hx
    by_cases hnr : needsRefresh a now
    · exfalso
      have : (get_token a now
          (TransportResult.response s reason text (some ⟨some tok, some ei⟩))).exchanges
            = 1 := by
        simp only [get_token, if_pos hnr]
        cases authenticate a now
          (TransportResult.response s reason text (some ⟨some tok, some ei⟩)) <;> simp
      omega
    · unfold needsRefresh at hnr
      push_neg at hnr
      omega
  · intro hnr
    have hauth : authenticate a now
        (TransportResult.response s reason text (some ⟨some tok, some ei⟩))
          = AuthOutcome.ok tok (now + (ei - 300)) := by
      simp [authenticate, hs]
    refine ⟨?_, ?_, ?_, ?_⟩
    · simp [get_token, hnr, hauth]
    · simp [get_token, hnr, hauth]
    · simp only [get_token, if_pos hnr, hauth]
      omega
    · simp only [get_token, if_pos hnr, hauth]
      omega

/-- C6 witness: a fresh exchange with `expires_in = 3600` at time 0 caches
expiry 3300, exactly 300 seconds before the server-declared 3600. -/
theorem C6_no_expired_token_witness :
    (get_token sampleAuthNew 0
        (TransportResult.response 200 "OK" "b" (some ⟨some "tok", some 3600⟩))).result
      = Except.ok "tok"
    ∧ (get_token sampleAuthNew 0
        (TransportResult.response 200 "OK" "b"
          (some ⟨some "tok", some 3600⟩))).state.token_expiry
        = 0 + ((3600 : Int) - 300) :=
  ⟨((C6_no_expired_token sampleAuthNew 0 3600 "tok" "OK" "b" 200
        (by decide)).2 (Or.inl rfl)).1,
   ((C6_no_expired_token sampleAuthNew 0 3600 "tok" "OK" "b" 200
        (by decide)).2 (Or.inl rfl)).2.1⟩

/-- C7: for a 2xx response handled by `RuckusOneClient.request` (once auth
headers were obtained): with `raw_response=True` the unprocessed response
object is returned regardless of content-type; otherwise a non-empty body
whose Content-Type contains "json" is returned as the parsed JSON
structure, any other body is returned as the raw bytes unmodified, and an
empty body is returned as the empty payload with no decode attempted. -/
theorem C7_success_decoding (a : AuthState) (now : Int)
    (authTr : TransportResult) (headers : Option (List (String × String)))
    (r : Response) (raw_response : Bool)
    (hauth : ∃ t, (get_token a now authTr).result = Except.ok t)
    (h2xx : 200 ≤ r.status_code ∧ r.status_code < 300) :
    (raw_response = true →
        (request a now authTr headers (CallResult.resp r) raw_response).result
          = Except.ok (RequestValue.raw r))
    ∧ (raw_response = false → r.content ≠ "" →
        isJsonContentType r.content_type = true →
        ∀ j, r.json = some j →
          (request a now authTr headers (CallResult.resp r) raw_response).result
            = Except.ok (RequestValue.jsonData j))
    ∧ (raw_response = false →
        ¬(r.content ≠ "" ∧ isJsonContentType r.content_type = true) →
        (request a now authTr headers (CallResult.resp r) raw_response).result
          = Except.ok (RequestValue.content r.content))
    ∧ (raw_response = false → r.content = "" →
        (request a now authTr headers (CallResult.resp r) raw_response).result
          = Except.ok (RequestValue.content "")) := by
  obtain ⟨t, ht⟩ := hauth
  refine ⟨?_, ?_, ?_, ?_⟩
  · intro hraw
    simp [request, get_auth_headers, ht, h2xx, hraw]
  · intro hraw hc hct j hj
    simp [request, get_auth_headers, ht, h2xx, hraw, hc, hct, hj]
  · intro hraw hnc
    rw [not_and] at hnc
    by_cases hc : r.content = ""
    · simp [request, get_auth_headers, ht, h2xx, hraw, hc]
    · have hct : ¬ isJsonContentType r.content_type = true := hnc hc
      simp [request, get_auth_headers, ht, h2xx, hraw, hc, hct]
  · intro hraw hc
    simp [request, get_auth_headers, ht, h2xx, hraw, hc]

/-- C7 witness: a 200 JSON response decodes to its parsed structure, and a
200 text/plain response comes back as its raw bytes. -/
theorem C7_success_decoding_witness :
    (request sampleAuthCached 50 (TransportResult.exn "x") none
        (CallResult.resp
          ⟨200, "application/json", "x",
           some (JVal.obj [("a", JVal.num 1)]), "", "x"⟩) false).result
      = Except.ok (RequestValue.jsonData (JVal.obj [("a", JVal.num 1)])) :=
  (C7_success_decoding sampleAuthCached 50 (TransportResult.exn "x") none
      ⟨200, "application/json", "x", some (JVal.obj [("a", JVal.num 1)]), "", "x"⟩
      false ⟨"tok", rfl⟩ (by decide)).2.1
    rfl (by decide) (by decide) (JVal.obj [("a", JVal.num 1)]) rfl

/-- C8: `APIError.__init__` with `status_code=418`, `detail=None` and no
explicit message sets the message to "None" (Python `str(None)`), not to
the generic template "API Error (Status: 418)": since `str(detail)` is the
truthy string "None" whenever `detail` is `None`, the template fallback in
`message or str(detail) or f"API Error (Status: ...)"` is unreachable in
exactly the detail-absent case the template was written for. -/
theorem C8_message_default_bug :
    (mkAPIError (some 418) JVal.null none).messageOf = "None"
    ∧ "None" ≠ "API Error (Status: 418)" := ⟨rfl, by decide⟩

end RuckusOne
